import Mathlib

/-!
Verification of `conans/tools.py` (download/verify/extract/patch pipeline and the
system package-manager abstraction) against its natural-language specification.

The Python source is shallowly embedded: pure string computations become Lean
functions on `String`; the side-effecting parts (running commands, extracting
archive entries, downloading, deleting files) are parameterized by explicit
effect functions returning `Except String Unit`, and the observable calls made
by the code are recorded as explicit event lists.
-/

namespace Conan

/-- Model of Python list-of-characters prefix testing (`str.startswith` semantics):
`leadsWith p s` holds when the character list `p` is an initial segment of `s`. -/
def leadsWith : List Char → List Char → Bool
  | [], _ => true
  | _ :: _, [] => false
  | a :: as, b :: bs => a == b && leadsWith as bs

/-- `strStartsWith p s` models Python `s.startswith(p)`. -/
def strStartsWith (p s : String) : Bool := leadsWith p.data s.data

/-- `strEndsWith s post` models Python `s.endswith(post)`. -/
def strEndsWith (s post : String) : Bool := leadsWith post.data.reverse s.data.reverse

/-- Model of Python `str.lower()` restricted to character-wise folding. -/
def strToLower (s : String) : String := String.mk (s.data.map Char.toLower)

/-- Helper for `basename`: keeps the characters seen since the last `/`. -/
def basenameChars : List Char → List Char → List Char
  | acc, [] => acc
  | _acc, '/' :: rest => basenameChars [] rest
  | acc, c :: rest => basenameChars (acc ++ [c]) rest

/-- Model of Python `os.path.basename` on POSIX separators: the final path segment. -/
def basename (p : String) : String := String.mk (basenameChars [] p.data)

/-- `exOk r` is `true` exactly when the modelled Python call returned without raising. -/
def exOk {ε α : Type} : Except ε α → Bool
  | Except.ok _ => true
  | Except.error _ => false

/- ### ChecksumVerifier: `check_with_algorithm_sum` (tools.py lines 227-234) -/

/-- Error message raised by `check_with_algorithm_sum` on a mismatch:
`"%s signature failed for '%s' file. Computed signature: %s"` with the algorithm,
the base name of the checked file, and the digest that was actually computed. -/
def checksumErrorMsg (algorithm_name file_path real_signature : String) : String :=
  algorithm_name ++ " signature failed for \x27" ++ basename file_path ++
    "\x27 file. Computed signature: " ++ real_signature

/-- Embedding of `check_with_algorithm_sum(algorithm_name, file_path, signature)`.
The digest computation `_generic_algorithm_sum` lives in `conans/util/files.py`
(not under src/), so it is abstracted as the `digest` parameter mapping
(algorithm name, file content) to the computed hex digest; the comparison and the
raised message are translated from the source. -/
def check_with_algorithm_sum (digest : String → String → String)
    (algorithm_name file_path signature content : String) : Except String Unit :=
  let real_signature := digest algorithm_name content
  if real_signature ≠ signature then
    Except.error (checksumErrorMsg algorithm_name file_path real_signature)
  else
    Except.ok ()

/-- Modelled from the spec: `_generic_algorithm_sum` (in `conans/util/files.py`,
which is not under src/) computes the hex digest of the file content under the
named algorithm; such digests are emitted as lowercase hex. This constant is the
standard sha256 digest of empty content, used as a concrete digest-oracle value. -/
def sha256EmptyHex : String :=
  "e3b0c44298fc1c149afbf4c8996fb92427ae41e4649b934ca495991b7852b855"

/-- The same digest with its hex letters upper-cased: equal to `sha256EmptyHex`
under case-insensitive comparison, different under exact comparison. -/
def sha256EmptyHexUpper : String :=
  "E3B0C44298FC1C149AFBF4C8996FB92427AE41E4649B934CA495991B7852B855"

/-- Claim C1, as stated, is false on the code: the claim says the computed and
expected hex digests are compared case-insensitively, but the source compares
them with exact string inequality (`real_signature != signature`). With the
expected digest given in uppercase and the computed digest the standard
lowercase sha256 of empty content, the two are equal case-insensitively and yet
the check fails. -/
theorem C1_counterexample :
    strToLower sha256EmptyHexUpper = strToLower sha256EmptyHex ∧
    exOk (check_with_algorithm_sum (fun _ _ => sha256EmptyHex) "sha256"
      "archive.tgz" sha256EmptyHexUpper "") = false := by
  constructor
  · decide
  · decide

/-- Claim C1 (amended): for every digest oracle, algorithm, file and expected
signature, `check_with_algorithm_sum` succeeds iff the computed digest equals
the expected one under EXACT (case-sensitive) string comparison; on failure the
error names the algorithm, the file's base name and the actually-computed
digest. -/
theorem C1_checksum (digest : String → String → String)
    (alg path sig content : String) :
    (exOk (check_with_algorithm_sum digest alg path sig content) = true ↔
      digest alg content = sig) ∧
    (digest alg content ≠ sig →
      check_with_algorithm_sum digest alg path sig content =
        Except.error (checksumErrorMsg alg path (digest alg content))) := by
  constructor
  · by_cases h : digest alg content = sig <;>
      simp [check_with_algorithm_sum, exOk, h]
  · intro h
    simp [check_with_algorithm_sum, h]

/-- Witness for `C1_checksum` at a concrete digest oracle and mismatching
expected signature. -/
theorem C1_witness :
    (exOk (check_with_algorithm_sum (fun _ _ => "ab") "md5" "dir/f.txt" "xx" "c") = true ↔
      ("ab" : String) = "xx") ∧
    check_with_algorithm_sum (fun _ _ => "ab") "md5" "dir/f.txt" "xx" "c" =
      Except.error (checksumErrorMsg "md5" "dir/f.txt" "ab") :=
  ⟨(C1_checksum (fun _ _ => "ab") "md5" "dir/f.txt" "xx" "c").1,
   (C1_checksum (fun _ _ => "ab") "md5" "dir/f.txt" "xx" "c").2 (by decide)⟩

/- ### Privilege escalation: `SystemPackageTool.__init__` and the adapters
   (tools.py lines 460-467, 526-559) -/

/-- Embedding of `env_sudo != "False" and env_sudo != "0"` where `env_sudo` is
`os.environ.get("CONAN_SYSREQUIRES_SUDO", None)` (`none` models absence). -/
def sudo_enabled (env_sudo : Option String) : Bool :=
  env_sudo != some "False" && env_sudo != some "0"

/-- Embedding of `self._tool._sudo_str = "sudo " if self._sudo else ""`. -/
def sudo_str (b : Bool) : String := if b then "sudo " else ""

/-- Command string run by `AptTool.update`. -/
def AptTool.update_cmd (sudo_s : String) : String := sudo_s ++ "apt-get update"

/-- Command string run by `AptTool.install`. -/
def AptTool.install_cmd (sudo_s pkg : String) : String :=
  sudo_s ++ "apt-get install -y " ++ pkg

/-- Command string run by `YumTool.update`. -/
def YumTool.update_cmd (sudo_s : String) : String := sudo_s ++ "yum check-update"

/-- Command string run by `YumTool.install`. -/
def YumTool.install_cmd (sudo_s pkg : String) : String :=
  sudo_s ++ "yum install -y " ++ pkg

/-- Command string run by `BrewTool.update`; the `_sudo_str` attribute is set on
every tool instance but this command does not use it. -/
def BrewTool.update_cmd (_sudo_s : String) : String := "brew update"

/-- Command string run by `BrewTool.install`; does not use `_sudo_str`. -/
def BrewTool.install_cmd (_sudo_s pkg : String) : String := "brew install " ++ pkg

theorem leadsWith_refl_append (l m : List Char) : leadsWith l (l ++ m) = true := by
  induction l with
  | nil => simp [leadsWith]
  | cons a as ih => simp [leadsWith, ih]

theorem strStartsWith_append_two (p a b : String) :
    strStartsWith p (p ++ a ++ b) = true := by
  cases p with
  | mk pd =>
    cases a with
    | mk ad =>
      cases b with
      | mk bd =>
        show leadsWith pd ((pd ++ ad) ++ bd) = true
        rw [List.append_assoc]
        exact leadsWith_refl_append pd _

theorem leadsWith_cons_ne (a b : Char) (as bs : List Char) (h : ¬(a = b)) :
    leadsWith (a :: as) (b :: bs) = false := by
  simp [leadsWith, h]

/-- Claim C2, as stated, is false on the code: even with the sudo override
absent (so that privilege escalation is enabled), the brew adapter's update
command does not begin with `"sudo "` — `BrewTool` never uses the
`_sudo_str` attribute set on it. -/
theorem C2_counterexample :
    sudo_enabled none = true ∧
    strStartsWith "sudo " (BrewTool.update_cmd (sudo_str (sudo_enabled none))) = false := by
  constructor
  · decide
  · decide

/-- Claim C2 (amended): the apt and yum update/install command strings begin
with `"sudo "` exactly when the environment override enables sudo (any value
other than `"False"`/`"0"`, including absence); the brew update/install
command strings never begin with `"sudo "`. -/
theorem C2_sudo (env_sudo : Option String) (pkg : String) :
    (strStartsWith "sudo " (AptTool.update_cmd (sudo_str (sudo_enabled env_sudo))) =
      sudo_enabled env_sudo) ∧
    (strStartsWith "sudo " (AptTool.install_cmd (sudo_str (sudo_enabled env_sudo)) pkg) =
      sudo_enabled env_sudo) ∧
    (strStartsWith "sudo " (YumTool.update_cmd (sudo_str (sudo_enabled env_sudo))) =
      sudo_enabled env_sudo) ∧
    (strStartsWith "sudo " (YumTool.install_cmd (sudo_str (sudo_enabled env_sudo)) pkg) =
      sudo_enabled env_sudo) ∧
    (strStartsWith "sudo " (BrewTool.update_cmd (sudo_str (sudo_enabled env_sudo))) = false) ∧
    (strStartsWith "sudo " (BrewTool.install_cmd (sudo_str (sudo_enabled env_sudo)) pkg) = false) := by
  cases h : sudo_enabled env_sudo with
  | true =>
    refine ⟨by decide, ?_, by decide, ?_, by decide, ?_⟩
    · exact strStartsWith_append_two "sudo " "apt-get install -y " pkg
    · exact strStartsWith_append_two "sudo " "yum install -y " pkg
    · cases pkg with
      | mk d => exact leadsWith_cons_ne 's' 'b' _ _ (by decide)
  | false =>
    refine ⟨by decide, ?_, by decide, ?_, by decide, ?_⟩
    · cases pkg with
      | mk d => exact leadsWith_cons_ne 's' 'a' _ _ (by decide)
    · cases pkg with
      | mk d => exact leadsWith_cons_ne 's' 'y' _ _ (by decide)
    · cases pkg with
      | mk d => exact leadsWith_cons_ne 's' 'b' _ _ (by decide)

/- ### SystemPackageTool: update/install state machine (tools.py lines 479-512) -/

/-- Observable adapter calls made by `SystemPackageTool`. -/
inductive Event where
  | update : Event
  | install : String → Event

/-- Abstract behaviour of the selected adapter (`self._tool`): whether a package
is reported installed, the outcome of installing a package, and the outcome of
the update command (an `Except.error` models a raised `ConanException` from
`_run`). -/
structure ToolModel where
  installed : String → Bool
  installResult : String → Except String Unit
  updateResult : Except String Unit

/-- Python `repr` of a list of strings, as interpolated by
`"Could not install any of %s" % packages`. -/
def pyStrListRepr (l : List String) : String :=
  "[" ++ String.intercalate ", " (l.map (fun s => "\x27" ++ s ++ "\x27")) ++ "]"

/-- Message of the `ConanException` raised when every candidate fails. -/
def noPackageMsg (packages : List String) : String :=
  "Could not install any of " ++ pyStrListRepr packages

/-- The multi-candidate loop of `_install_any`: try each package in order,
return on the first success, swallow `ConanException` failures, and raise
naming all candidates if the loop exhausts. Returns the adapter install calls
made together with the outcome. -/
def installLoop (tm : ToolModel) (allPackages : List String) :
    List String → List Event × Except String Unit
  | [] => ([], Except.error (noPackageMsg allPackages))
  | p :: ps =>
    match tm.installResult p with
    | Except.ok _ => ([Event.install p], Except.ok ())
    | Except.error _ =>
      let r := installLoop tm allPackages ps
      (Event.install p :: r.1, r.2)

/-- Embedding of `SystemPackageTool._install_any`: a single candidate is
installed directly (its failure propagates); otherwise the fallback loop runs. -/
def _install_any (tm : ToolModel) (packages : List String) :
    List Event × Except String Unit :=
  if packages.length = 1 then
    ([Event.install (packages.headD "")], tm.installResult (packages.headD ""))
  else
    installLoop tm packages packages

/-- Mutable state of one `SystemPackageTool` instance. -/
structure SPTState where
  is_up_to_date : Bool

/-- Embedding of `SystemPackageTool.update`: the `_is_up_to_date` flag is set
BEFORE the adapter's update command runs, so the new state has the flag set
even when the command fails. -/
def SystemPackageTool.update (tm : ToolModel) (_s : SPTState) :
    SPTState × List Event × Except String Unit :=
  ({ is_up_to_date := true }, [Event.update], tm.updateResult)

/-- Embedding of `SystemPackageTool._installed`: true when some candidate is
reported installed by the adapter (first match wins). -/
def _installed (tm : ToolModel) (packages : List String) : Bool :=
  packages.any tm.installed

/-- Embedding of `SystemPackageTool.install(packages, update, force)`. Returns
the new instance state, the adapter calls made, and the outcome; a raised
exception from the update command propagates without attempting any install. -/
def SystemPackageTool.install (tm : ToolModel) (s : SPTState)
    (packages : List String) (upd force : Bool) :
    SPTState × List Event × Except String Unit :=
  if !force && _installed tm packages then
    (s, [], Except.ok ())
  else if upd && !s.is_up_to_date then
    match SystemPackageTool.update tm s with
    | (s1, ev1, Except.error e) => (s1, ev1, Except.error e)
    | (s1, ev1, Except.ok _) =>
      let r := _install_any tm packages
      (s1, ev1 ++ r.1, r.2)
  else
    let r := _install_any tm packages
    (s, r.1, r.2)

/-- A sequence of `install` calls on the same instance: each entry is
(candidate packages, update flag, force flag). Returns the final state and the
concatenated adapter calls. -/
def runInstalls (tm : ToolModel) (s : SPTState) :
    List (List String × Bool × Bool) → SPTState × List Event
  | [] => (s, [])
  | (pkgs, upd, force) :: rest =>
    let r := SystemPackageTool.install tm s pkgs upd force
    let rr := runInstalls tm r.1 rest
    (rr.1, r.2.1 ++ rr.2)

/-- Number of adapter update commands in a call trace. -/
def numUpdates : List Event → Nat
  | [] => 0
  | Event.update :: rest => numUpdates rest + 1
  | Event.install _ :: rest => numUpdates rest

theorem numUpdates_append (l m : List Event) :
    numUpdates (l ++ m) = numUpdates l + numUpdates m := by
  induction l with
  | nil => simp [numUpdates]
  | cons e rest ih =>
    cases e <;> simp [numUpdates, ih]
    omega

theorem installLoop_no_update (tm : ToolModel) (allP l : List String) :
    numUpdates (installLoop tm allP l).1 = 0 := by
  induction l with
  | nil => simp [installLoop, numUpdates]
  | cons p ps ih =>
    cases h : tm.installResult p <;> simp [installLoop, h, numUpdates, ih]

theorem install_any_no_update (tm : ToolModel) (packages : List String) :
    numUpdates (_install_any tm packages).1 = 0 := by
  unfold _install_any
  by_cases h : packages.length = 1 <;>
    simp [h, numUpdates, installLoop_no_update]

/-- `1` while an instance has not yet updated, `0` afterwards: the number of
update commands the instance may still issue. -/
def updBound (s : SPTState) : Nat := if s.is_up_to_date then 0 else 1

theorem install_call_bound (tm : ToolModel) (s : SPTState)
    (pkgs : List String) (u f : Bool) :
    numUpdates (SystemPackageTool.install tm s pkgs u f).2.1 +
      updBound (SystemPackageTool.install tm s pkgs u f).1 ≤ updBound s := by
  unfold SystemPackageTool.install
  by_cases h1 : !f && _installed tm pkgs
  · simp [h1, numUpdates]
  · by_cases h2 : u && !s.is_up_to_date
    · obtain ⟨hu, hneg⟩ : u = true ∧ (!s.is_up_to_date) = true := by simpa using h2
      have hs : s.is_up_to_date = false := by simpa using hneg
      cases hr : tm.updateResult <;>
        simp [h1, h2, hu, SystemPackageTool.update, hr, updBound, hs, numUpdates,
          numUpdates_append, install_any_no_update]
    · simp [h1, h2, updBound, install_any_no_update]

theorem runInstalls_bound (tm : ToolModel)
    (calls : List (List String × Bool × Bool)) :
    ∀ s : SPTState, numUpdates (runInstalls tm s calls).2 ≤ updBound s := by
  induction calls with
  | nil => intro s; simp [runInstalls, numUpdates]
  | cons c rest ih =>
    intro s
    obtain ⟨pkgs, u, f⟩ := c
    have h1 := install_call_bound tm s pkgs u f
    have h2 := ih (SystemPackageTool.install tm s pkgs u f).1
    simp only [runInstalls, numUpdates_append]
    omega

theorem installLoop_spec (tm : ToolModel) (allP : List String) (l : List String) :
    (exOk (installLoop tm allP l).2 = true ∨
      (installLoop tm allP l).2 = Except.error (noPackageMsg allP)) ∧
    ((installLoop tm allP l).2 = Except.error (noPackageMsg allP) ↔
      ∀ p ∈ l, exOk (tm.installResult p) = false) := by
  induction l with
  | nil => simp [installLoop, exOk]
  | cons p ps ih =>
    cases h : tm.installResult p with
    | ok u => simp [installLoop, h, exOk]
    | error e =>
      constructor
      · simpa [installLoop, h] using ih.1
      · simp [installLoop, h, exOk, ih.2]

/-- Claim C3: with a single candidate, `_install_any` runs the adapter install
directly, so its failure propagates unchanged; with more than one candidate,
individual failures are swallowed and the `NoPackageAvailable` error naming all
attempted candidates is raised exactly when every candidate's install fails
(otherwise the call succeeds). -/
theorem C3_install_any (tm : ToolModel) (packages : List String) :
    (∀ p, _install_any tm [p] = ([Event.install p], tm.installResult p)) ∧
    (1 < packages.length →
      (exOk (_install_any tm packages).2 = true ∨
        (_install_any tm packages).2 = Except.error (noPackageMsg packages)) ∧
      ((_install_any tm packages).2 = Except.error (noPackageMsg packages) ↔
        ∀ p ∈ packages, exOk (tm.installResult p) = false)) := by
  constructor
  · intro p
    simp [_install_any]
  · intro h
    have hne : packages.length ≠ 1 := by omega
    simp only [_install_any, if_neg hne]
    exact installLoop_spec tm packages packages

/-- Adapter whose install fails for every candidate. -/
def tmEx : ToolModel where
  installed := fun _ => false
  installResult := fun _ => Except.error "Command \x27apt-get install -y a\x27 failed"
  updateResult := Except.ok ()

/-- Witness for `C3_install_any` on a concrete two-candidate request where both
installs fail. -/
theorem C3_witness :
    _install_any tmEx ["a"] = ([Event.install "a"], tmEx.installResult "a") ∧
    ((_install_any tmEx ["a", "b"]).2 = Except.error (noPackageMsg ["a", "b"]) ↔
      ∀ p ∈ ["a", "b"], exOk (tmEx.installResult p) = false) :=
  ⟨(C3_install_any tmEx ["a", "b"]).1 "a",
   ((C3_install_any tmEx ["a", "b"]).2 (by decide)).2⟩

/-- Claim C4: an `install` call with `force = false` where some candidate is
reported already installed returns immediately with no adapter calls at all (in
particular no install and no update) and leaves the state untouched; and over
any sequence of `install` calls on one instance starting from a fresh state,
the adapter's update command runs at most once. -/
theorem C4_install (tm : ToolModel) (s : SPTState) (packages : List String)
    (u : Bool) :
    (packages.any tm.installed = true →
      SystemPackageTool.install tm s packages u false = (s, [], Except.ok ())) ∧
    (∀ calls, numUpdates (runInstalls tm ⟨false⟩ calls).2 ≤ 1) := by
  constructor
  · intro h
    simp [SystemPackageTool.install, _installed, h]
  · intro calls
    have hb := runInstalls_bound tm calls ⟨false⟩
    simpa [updBound] using hb

/-- Adapter reporting candidate "a" as already installed. -/
def tmInst : ToolModel where
  installed := fun p => p == "a"
  installResult := fun _ => Except.ok ()
  updateResult := Except.ok ()

/-- Witness for `C4_install` with "a" already installed and a concrete
two-call sequence. -/
theorem C4_witness :
    (["a", "b"].any tmInst.installed = true) ∧
    SystemPackageTool.install tmInst ⟨false⟩ ["a", "b"] true false =
      (⟨false⟩, [], Except.ok ()) ∧
    numUpdates (runInstalls tmInst ⟨false⟩
      [(["c"], true, false), (["d"], true, false)]).2 ≤ 1 :=
  ⟨by decide,
   (C4_install tmInst ⟨false⟩ ["a", "b"] true).1 (by decide),
   (C4_install tmInst ⟨false⟩ ["a", "b"] true).2
     [(["c"], true, false), (["d"], true, false)]⟩

/-- Claim C9: `SystemPackageTool.update` sets the `_is_up_to_date` flag before
running the adapter's update command, so even when that command fails the
resulting state has the flag set, and no later `install` call on that state
ever issues another update command. -/
theorem C9_update_flag (tm : ToolModel) (s : SPTState) (e : String)
    (_h : (SystemPackageTool.update tm s).2.2 = Except.error e) :
    (SystemPackageTool.update tm s).1.is_up_to_date = true ∧
    ∀ calls, numUpdates (runInstalls tm (SystemPackageTool.update tm s).1 calls).2 = 0 := by
  constructor
  · rfl
  · intro calls
    have hb := runInstalls_bound tm calls (SystemPackageTool.update tm s).1
    simpa [SystemPackageTool.update, updBound] using hb

/-- Adapter whose update command fails. -/
def tmFailUpd : ToolModel where
  installed := fun _ => false
  installResult := fun _ => Except.ok ()
  updateResult := Except.error "Command \x27sudo apt-get update\x27 failed"

/-- Witness for `C9_update_flag` with a concrete failing update command. -/
theorem C9_witness :
    (SystemPackageTool.update tmFailUpd ⟨false⟩).1.is_up_to_date = true ∧
    numUpdates (runInstalls tmFailUpd (SystemPackageTool.update tmFailUpd ⟨false⟩).1
      [(["a"], true, false)]).2 = 0 :=
  ⟨(C9_update_flag tmFailUpd ⟨false⟩ "Command \x27sudo apt-get update\x27 failed" rfl).1,
   (C9_update_flag tmFailUpd ⟨false⟩ "Command \x27sudo apt-get update\x27 failed" rfl).2
     [(["a"], true, false)]⟩

/- ### AcquisitionPipeline: `get` (tools.py lines 198-204) -/

/-- Embedding of `get(url)`: compute `filename = os.path.basename(url)`,
download, unzip, then `os.unlink` the archive. Each effect is abstracted as a
parameter returning `Except String Unit`; a raised exception at any step
propagates and aborts the remaining steps, exactly as in the source (there is
no try/except around any of the three calls). -/
def get (download : String → String → Except String Unit)
    (unzipF : String → Except String Unit)
    (unlink : String → Except String Unit) (url : String) : Except String Unit :=
  let filename := basename url
  match download url filename with
  | Except.error e => Except.error e
  | Except.ok _ =>
    match unzipF filename with
    | Except.error e => Except.error e
    | Except.ok _ => unlink filename

/-- Claim C5, as stated, is false on the code: the claim says deletion of the
downloaded archive is best-effort, but `get` calls `os.unlink` with no handler,
so when download and extraction succeed and deletion fails, `get` fails with
the deletion error. -/
theorem C5_counterexample :
    get (fun _ _ => Except.ok ()) (fun _ => Except.ok ())
      (fun _ => Except.error "Operation not permitted")
      "http://example.com/pkg.tgz" =
      Except.error "Operation not permitted" := rfl

/-- Claim C5 (amended): `get(url)` downloads to a file named after the URL's
final path segment, unpacks it and deletes it, and it succeeds iff all three
steps succeed on that name; in particular when download and extraction succeed,
the outcome of `get` is exactly the outcome of the deletion, so a deletion
failure propagates rather than being swallowed. -/
theorem C5_get (download : String → String → Except String Unit)
    (unzipF : String → Except String Unit)
    (unlink : String → Except String Unit) (url : String) :
    (exOk (get download unzipF unlink url) = true ↔
      exOk (download url (basename url)) = true ∧
      exOk (unzipF (basename url)) = true ∧
      exOk (unlink (basename url)) = true) ∧
    (exOk (download url (basename url)) = true →
      exOk (unzipF (basename url)) = true →
      get download unzipF unlink url = unlink (basename url)) := by
  cases hd : download url (basename url) with
  | error e => simp [get, hd, exOk]
  | ok a =>
    cases hu : unzipF (basename url) with
    | error e => simp [get, hd, hu, exOk]
    | ok b => simp [get, hd, hu, exOk]

/-- A deletion effect that always fails. -/
def unlinkBusy : String → Except String Unit :=
  fun _ => Except.error "Operation not permitted"

/-- Witness for `C5_get` at concrete effects where deletion fails. -/
theorem C5_witness :
    get (fun _ _ => Except.ok ()) (fun _ => Except.ok ()) unlinkBusy "http://h/p.tgz" =
      unlinkBusy (basename "http://h/p.tgz") :=
  (C5_get (fun _ _ => Except.ok ()) (fun _ => Except.ok ()) unlinkBusy
    "http://h/p.tgz").2 rfl rfl

/- ### ArchiveExtractor: zip strategy on the windows family
   (tools.py lines 166-176) -/

/-- A zip archive member as seen by the extraction loop. -/
structure ZipEntry where
  filename : String
  file_size : Nat

/-- What the loop did with one entry: extracted it, or printed
`"Error extract %s\n%s"` with the entry name and the error text and moved on. -/
inductive ExtractResult where
  | extracted : String → ExtractResult
  | errorLogged : String → String → ExtractResult

/-- Embedding of the windows branch of `unzip`'s per-entry loop: an entry whose
name length plus `len(full_path)` reaches 260 raises
`ValueError("Filename too long")` before extraction; every exception (that one
included, and any failure of `z.extract`) is caught and logged, and the loop
continues with the remaining entries. `full_path_len` models `len(full_path)`
and `extract` models `z.extract`. -/
def unzip_windows_loop (extract : ZipEntry → Except String Unit)
    (full_path_len : Nat) : List ZipEntry → List ExtractResult
  | [] => []
  | e :: rest =>
    (if e.filename.length + full_path_len ≥ 260 then
      ExtractResult.errorLogged e.filename "Filename too long"
    else
      match extract e with
      | Except.ok _ => ExtractResult.extracted e.filename
      | Except.error m => ExtractResult.errorLogged e.filename m) ::
    unzip_windows_loop extract full_path_len rest

theorem uwl_length (extract : ZipEntry → Except String Unit) (fplen : Nat)
    (entries : List ZipEntry) :
    (unzip_windows_loop extract fplen entries).length = entries.length := by
  induction entries with
  | nil => rfl
  | cons e rest ih => simp [unzip_windows_loop, ih]

theorem uwl_get (extract : ZipEntry → Except String Unit) (fplen : Nat) :
    ∀ (entries : List ZipEntry) (i : Nat) (e : ZipEntry), entries[i]? = some e →
      (unzip_windows_loop extract fplen entries)[i]? = some (
        if e.filename.length + fplen ≥ 260 then
          ExtractResult.errorLogged e.filename "Filename too long"
        else match extract e with
          | Except.ok _ => ExtractResult.extracted e.filename
          | Except.error m => ExtractResult.errorLogged e.filename m) := by
  intro entries
  induction entries with
  | nil =>
    intro i e h
    simp at h
  | cons x xs ih =>
    intro i e h
    cases i with
    | zero =>
      simp at h
      subst h
      simp [unzip_windows_loop]
    | succ n =>
      simp at h
      simp [unzip_windows_loop]
      exact ih n e h

/-- Claim C6: in the windows zip loop, extraction never aborts (one result per
entry); every entry whose name length plus the destination path length reaches
or exceeds 260 yields a logged "Filename too long" error in place, and every
entry below that limit whose extraction succeeds is extracted. -/
theorem C6_windows_zip (extract : ZipEntry → Except String Unit) (fplen : Nat)
    (entries : List ZipEntry) :
    ((unzip_windows_loop extract fplen entries).length = entries.length) ∧
    (∀ (i : Nat) (e : ZipEntry), entries[i]? = some e →
      (260 ≤ e.filename.length + fplen →
        (unzip_windows_loop extract fplen entries)[i]? =
          some (ExtractResult.errorLogged e.filename "Filename too long")) ∧
      (e.filename.length + fplen < 260 → exOk (extract e) = true →
        (unzip_windows_loop extract fplen entries)[i]? =
          some (ExtractResult.extracted e.filename))) := by
  refine ⟨uwl_length extract fplen entries, ?_⟩
  intro i e h
  constructor
  · intro hlen
    rw [uwl_get extract fplen entries i e h]
    simp [hlen]
  · intro hlen hok
    rw [uwl_get extract fplen entries i e h]
    have hn : ¬(e.filename.length + fplen ≥ 260) := by omega
    cases hx : extract e with
    | ok a => simp [hn, hx]
    | error m =>
      rw [hx] at hok
      simp [exOk] at hok

/-- A two-entry archive: one short name, one name that overflows the 260-char
ceiling when joined with a 250-char destination. -/
def entriesEx : List ZipEntry :=
  [⟨"ok.txt", 10⟩, ⟨"averyverylongfilename.txt", 5⟩]

/-- Witness for `C6_windows_zip`: the long entry is logged as an error, the
short sibling is still extracted, and no entry is dropped. -/
theorem C6_witness :
    ((unzip_windows_loop (fun _ => Except.ok ()) 250 entriesEx).length =
      entriesEx.length) ∧
    (unzip_windows_loop (fun _ => Except.ok ()) 250 entriesEx)[1]? =
      some (ExtractResult.errorLogged "averyverylongfilename.txt" "Filename too long") ∧
    (unzip_windows_loop (fun _ => Except.ok ()) 250 entriesEx)[0]? =
      some (ExtractResult.extracted "ok.txt") :=
  ⟨(C6_windows_zip (fun _ => Except.ok ()) 250 entriesEx).1,
   ((C6_windows_zip (fun _ => Except.ok ()) 250 entriesEx).2 1
     ⟨"averyverylongfilename.txt", 5⟩ rfl).1 (by decide),
   ((C6_windows_zip (fun _ => Except.ok ()) 250 entriesEx).2 0
     ⟨"ok.txt", 10⟩ rfl).2 (by decide) rfl⟩

/- ### ArchiveExtractor dispatch (tools.py lines 147-150, 192-195) -/

/-- The extraction strategy chosen by `unzip`. -/
inductive UnzipAction where
  | tar : String → String → UnzipAction
  | zip : String → String → Bool → UnzipAction

/-- The suffix test of `unzip`'s dispatch. -/
def is_tar_name (filename : String) : Bool :=
  strEndsWith filename ".tar.gz" || strEndsWith filename ".tgz" ||
  strEndsWith filename ".tbz2" || strEndsWith filename ".tar.bz2" ||
  strEndsWith filename ".tar"

/-- Embedding of `unzip`'s strategy dispatch: tar-suffixed names are handed to
`untargz(filename, destination)` — `keep_permissions` is not passed and
`untargz` takes no such parameter — while everything else goes to the zip
strategy with `keep_permissions` forwarded. -/
def unzip_dispatch (filename destination : String) (keep_permissions : Bool) :
    UnzipAction :=
  if is_tar_name filename then UnzipAction.tar filename destination
  else UnzipAction.zip filename destination keep_permissions

/-- Claim C10: a filename with one of the five tar suffixes dispatches to the
tar strategy, which does not receive `keep_permissions`: the action is
`tar filename destination` and is therefore identical for both values of
`keep_permissions`. -/
theorem C10_tar_dispatch (filename destination : String) (kp kp' : Bool)
    (h : (strEndsWith filename ".tar.gz" || strEndsWith filename ".tgz" ||
      strEndsWith filename ".tbz2" || strEndsWith filename ".tar.bz2" ||
      strEndsWith filename ".tar") = true) :
    unzip_dispatch filename destination kp = UnzipAction.tar filename destination ∧
    unzip_dispatch filename destination kp = unzip_dispatch filename destination kp' := by
  have ht : is_tar_name filename = true := h
  constructor
  · simp [unzip_dispatch, ht]
  · simp [unzip_dispatch, ht]

/-- Witness for `C10_tar_dispatch` at a concrete tar name. -/
theorem C10_witness :
    unzip_dispatch "boost.tar.gz" "." true = UnzipAction.tar "boost.tar.gz" "." ∧
    unzip_dispatch "boost.tar.gz" "." true = unzip_dispatch "boost.tar.gz" "." false :=
  C10_tar_dispatch "boost.tar.gz" "." true false (by decide)

/- ### PlatformFingerprint: `OSInfo.get_debian_version_name`
   (tools.py lines 376-392) -/

/-- Modelled from the spec: `Version` (defined in `conans/model/version.py`,
which is not under src/) is "a three-component comparable version:
major.minor.patch"; its components are the dot-separated strings of the raw
version text. -/
structure Version where
  majorComp : String
  minorComp : String
  patchComp : String

/-- Modelled from the spec: the `major()` accessor produces the
"major-matches" pattern, `"X.Y.Z"` with the literal wildcard text `Y.Z`, so
that `version.major() == "8.Y.Z"` holds for any 8.y.z version. -/
def Version.major (v : Version) : String := v.majorComp ++ ".Y.Z"

/-- Modelled from the spec: the `minor()` accessor produces the
"minor-matches" pattern `"X.Y.Z"` with the literal wildcard `Z`, so that
`version.minor() == "3.1.Z"` holds for any 3.1.z version. -/
def Version.minor (v : Version) : String :=
  v.majorComp ++ "." ++ v.minorComp ++ ".Z"

/-- Embedding of `OSInfo.get_debian_version_name`: an ordered pattern table on
the Debian version, first match winning; `none` models both the falsy-version
early return and the implicit `None` when no pattern matches. -/
def get_debian_version_name : Option Version → Option String
  | none => none
  | some version =>
    if version.major = "8.Y.Z" then some "jessie"
    else if version.major = "7.Y.Z" then some "wheezy"
    else if version.major = "6.Y.Z" then some "squeeze"
    else if version.major = "5.Y.Z" then some "lenny"
    else if version.major = "4.Y.Z" then some "etch"
    else if version.minor = "3.1.Z" then some "sarge"
    else if version.minor = "3.0.Z" then some "woody"
    else none

/-- Claim C7: the Debian release-name table maps major 8/7/6/5/4 to
jessie/wheezy/squeeze/lenny/etch for any minor and patch component, minor
patterns 3.1 and 3.0 to sarge and woody, first match winning, and a version
matching no table entry resolves to `none` rather than failing. -/
theorem C7_debian (v : Version) :
    (v.majorComp = "8" → get_debian_version_name (some v) = some "jessie") ∧
    (v.majorComp = "7" → get_debian_version_name (some v) = some "wheezy") ∧
    (v.majorComp = "6" → get_debian_version_name (some v) = some "squeeze") ∧
    (v.majorComp = "5" → get_debian_version_name (some v) = some "lenny") ∧
    (v.majorComp = "4" → get_debian_version_name (some v) = some "etch") ∧
    (v.majorComp = "3" → v.minorComp = "1" →
      get_debian_version_name (some v) = some "sarge") ∧
    (v.majorComp = "3" → v.minorComp = "0" →
      get_debian_version_name (some v) = some "woody") ∧
    ((v.major ≠ "8.Y.Z" ∧ v.major ≠ "7.Y.Z" ∧ v.major ≠ "6.Y.Z" ∧
      v.major ≠ "5.Y.Z" ∧ v.major ≠ "4.Y.Z" ∧ v.minor ≠ "3.1.Z" ∧
      v.minor ≠ "3.0.Z") →
      get_debian_version_name (some v) = none) ∧
    get_debian_version_name none = none := by
  obtain ⟨ma, mi, pa⟩ := v
  refine ⟨?_, ?_, ?_, ?_, ?_, ?_, ?_, ?_, rfl⟩
  · intro h
    subst h
    simp [get_debian_version_name, Version.major]
  · intro h
    subst h
    simp [get_debian_version_name, Version.major]
  · intro h
    subst h
    simp [get_debian_version_name, Version.major]
  · intro h
    subst h
    simp [get_debian_version_name, Version.major]
  · intro h
    subst h
    simp [get_debian_version_name, Version.major]
  · intro h1 h2
    subst h1
    subst h2
    simp [get_debian_version_name, Version.major, Version.minor]
  · intro h1 h2
    subst h1
    subst h2
    simp [get_debian_version_name, Version.major, Version.minor]
  · intro h
    obtain ⟨h1, h2, h3, h4, h5, h6, h7⟩ := h
    simp [get_debian_version_name, h1, h2, h3, h4, h5, h6, h7]

/-- Witness for `C7_debian`: 8.4.0 resolves to jessie and 9.0.0 (matching no
table entry) resolves to `none`. -/
theorem C7_witness :
    get_debian_version_name (some ⟨"8", "4", "0"⟩) = some "jessie" ∧
    get_debian_version_name (some ⟨"9", "0", "0"⟩) = none := by
  constructor
  · exact (C7_debian ⟨"8", "4", "0"⟩).1 rfl
  · have h := C7_debian ⟨"9", "0", "0"⟩
    exact h.2.2.2.2.2.2.2.1 (by decide)

/- ### PatchApplier: `patch` (tools.py lines 249-282) -/

/-- Python truthiness of an optional string argument: absent (`None`) and the
empty string are falsy. -/
def truthy : Option String → Bool
  | none => false
  | some s => !s.isEmpty

/-- Python string interpolation of an optional value (`"%s" % x`): `None`
prints as `"None"`. -/
def pyOptStr : Option String → String
  | none => "None"
  | some s => s

/-- Embedding of `patch(base_path, patch_file, patch_string, strip)`. The
external patch library is abstracted: `fromfile`/`fromstring` return the parsed
patch set or `none` when parsing yields nothing usable, and `applyPS` is
`patchset.apply(root=base_path, strip=strip)`. When neither source is truthy
the function returns without parsing; otherwise a truthy `patch_file` is parsed
(taking precedence over `patch_string`), a falsy parse raises
"Failed to parse patch", and a failed apply raises "Failed to apply patch". -/
def patch {α : Type} (fromfile : String → Option α) (fromstring : String → Option α)
    (applyPS : α → Option String → Nat → Bool) (base_path : Option String)
    (patch_file patch_string : Option String) (strip : Nat) :
    Except String Unit :=
  if !truthy patch_file && !truthy patch_string then Except.ok ()
  else
    let patchset :=
      if truthy patch_file then fromfile (pyOptStr patch_file)
      else fromstring (pyOptStr patch_string)
    match patchset with
    | none =>
      Except.error ("Failed to parse patch: " ++
        (if truthy patch_file then pyOptStr patch_file else "string"))
    | some ps =>
      if applyPS ps base_path strip then Except.ok ()
      else Except.error ("Failed to apply patch: " ++ pyOptStr patch_file)

/-- Claim C8, as stated, is false on the code: with BOTH `patch_file` and
`patch_string` given ("not exactly one of the two"), the call is not a no-op —
the file is parsed, and when parsing yields no usable patch set an error is
raised. -/
theorem C8_counterexample :
    patch (α := Unit) (fun _ => none) (fun _ => some ()) (fun _ _ _ => true)
      none (some "p.diff") (some "--- a\n+++ b") 0 =
      Except.error "Failed to parse patch: p.diff" := rfl

/-- Claim C8 (amended): `patch` is a no-op (no parsing, no application, no
error) exactly when NEITHER `patch_file` nor `patch_string` is given; when both
are given, `patch_file` takes precedence and the call behaves as if only
`patch_file` had been passed. -/
theorem C8_patch_dispatch {α : Type} (fromfile : String → Option α)
    (fromstring : String → Option α) (applyPS : α → Option String → Nat → Bool)
    (base_path : Option String) (strip : Nat) :
    (∀ patch_file patch_string, truthy patch_file = false →
      truthy patch_string = false →
      patch fromfile fromstring applyPS base_path patch_file patch_string strip =
        Except.ok ()) ∧
    (∀ patch_file patch_string, truthy patch_file = true →
      patch fromfile fromstring applyPS base_path patch_file patch_string strip =
        patch fromfile fromstring applyPS base_path patch_file none strip) := by
  constructor
  · intro pf ps h1 h2
    simp [patch, h1, h2]
  · intro pf ps h1
    simp [patch, h1]

/-- Witness for `C8_patch_dispatch`: nothing given is a no-op, and with both
given the outcome matches a file-only call. -/
theorem C8_witness :
    patch (α := Unit) (fun _ => some ()) (fun _ => none) (fun _ _ _ => true)
      none none none 0 = Except.ok () ∧
    patch (α := Unit) (fun _ => some ()) (fun _ => none) (fun _ _ _ => true)
      none (some "p.diff") (some "--- a\n+++ b") 0 =
    patch (α := Unit) (fun _ => some ()) (fun _ => none) (fun _ _ _ => true)
      none (some "p.diff") none 0 :=
  ⟨(C8_patch_dispatch (fun _ => some ()) (fun _ => none) (fun _ _ _ => true)
      none 0).1 none none rfl rfl,
   (C8_patch_dispatch (fun _ => some ()) (fun _ => none) (fun _ _ _ => true)
      none 0).2 (some "p.diff") (some "--- a\n+++ b") (by decide)⟩

end Conan
